import Mathlib

/-!
Verification of the Love4Pets API gateway (NestJS) against its
natural-language specification.  The definitions below are a shallow
embedding of the TypeScript sources: pure functions become Lean
functions, guard chains become explicit sequencing, JavaScript string
truthiness (`""` is falsy) is modelled explicitly, and the outcome of
network calls is passed in as data.
-/

deriving instance DecidableEq for Except

namespace ApiGateway

/-! ## JavaScript-style helpers -/

/-- JS truthiness of an optional string: `undefined` and `""` are falsy. -/
def strTruthy : Option String → Bool
  | some s => s ≠ ""
  | none => false

/-- Embeds the JS idiom `x || dflt` on an optional string
(empty string falls back to the default, as in `payload.role || 'normal'`). -/
def jsOr (x : Option String) (dflt : String) : String :=
  match x with
  | some s => if s = "" then dflt else s
  | none => dflt

/-! ## Data model (src/unnamed/part_003: JwtPayload, AuthenticatedUser) -/

/-- The JWT `aud` claim: a single string or an array of strings
(`aud?: string | string[]` in the source). -/
inductive AudClaim
  | one (s : String)
  | many (l : List String)
  deriving Repr, DecidableEq

/-- The audience values carried by an `aud` claim, as computed by
`Array.isArray(payload.aud) ? payload.aud : [payload.aud]`. -/
def audList : AudClaim → List String
  | .one s => [s]
  | .many l => l

/-- JS truthiness of an `aud` claim value: an empty string is falsy,
an array (even the empty array) is truthy. -/
def audClaimTruthy : AudClaim → Bool
  | .one s => s ≠ ""
  | .many _ => true

/-- Embeds the `JwtPayload` interface (src/unnamed/part_003, lines 5-32).
Optional fields are `Option`; `sub` is optional here because the runtime
check `if (!payload.sub)` also guards a missing field. -/
structure JwtPayload where
  sub : Option String
  email : Option String
  role : Option String
  iat : Option Nat
  exp : Option Nat
  iss : Option String
  aud : Option AudClaim
  id_refugio : Option String
  nombre : Option String
  deriving Repr, DecidableEq

/-- Embeds the `AuthenticatedUser` interface (src/unnamed/part_003, lines 38-44). -/
structure AuthenticatedUser where
  userId : String
  email : Option String
  role : String
  idRefugio : Option String
  nombre : Option String
  deriving Repr, DecidableEq

/-- An HTTP-level failure as produced by a NestJS `HttpException`:
status code plus message. -/
structure HttpError where
  status : Nat
  message : String
  deriving Repr, DecidableEq

/-! ## AuthValidator: JwtStrategy.validate (src/unnamed/part_002, lines 88-118) -/

/-- The audience check of `JwtStrategy.validate` (src/unnamed/part_002, lines
97-105): the guard `if (expectedAudience && payload.aud)` applies the check
only when both are truthy; it then requires `audiences.includes(expected)`. -/
def audienceOk (expectedAudience : Option String) (aud : Option AudClaim) : Bool :=
  match expectedAudience, aud with
  | some ea, some c =>
      if ea ≠ "" ∧ audClaimTruthy c then (audList c).contains ea else true
  | _, _ => true

/-- Embeds `JwtStrategy.validate`: runs after signature and expiry have been
verified by passport-jwt.  Rejects a falsy `sub`; when a (truthy) expected
audience is configured and the payload carries a (truthy) `aud` claim,
rejects unless the expected audience is among the claim values; otherwise
builds the `AuthenticatedUser`, with `role: payload.role || 'normal'`. -/
def jwtStrategyValidate (expectedAudience : Option String) (p : JwtPayload) :
    Except HttpError AuthenticatedUser :=
  if ¬ strTruthy p.sub then
    .error ⟨401, "Token inválido: falta identificador de usuario"⟩
  else
    if audienceOk expectedAudience p.aud then
      .ok { userId := (p.sub).getD ""
            email := p.email
            role := jsOr p.role "normal"
            idRefugio := p.id_refugio
            nombre := p.nombre }
    else
      .error ⟨401, "Token inválido: audiencia incorrecta"⟩

/-! ## RoleAuthorizer: RolesGuard.canActivate (roles.guard.ts, lines 27-58) -/

/-- Embeds `requiredRoles.join(' o ')` used in the RolesGuard denial message. -/
def joinOr : List String → String
  | [] => ""
  | [r] => r
  | r :: rest => r ++ " o " ++ joinOr rest

/-- The RolesGuard denial message naming the accepted roles
(roles.guard.ts, lines 52-54). -/
def denialMessage (roles : List String) : String :=
  "Acceso denegado. Rol requerido: " ++ joinOr roles

/-- Embeds `RolesGuard.canActivate` (roles.guard.ts, lines 27-58): a missing
or empty required-role list allows unconditionally; otherwise a missing user
or a user whose role is in no required role is rejected with 403. -/
def rolesGuard (requiredRoles : Option (List String))
    (user : Option AuthenticatedUser) : Except HttpError Unit :=
  match requiredRoles with
  | none => .ok ()
  | some roles =>
    if roles = [] then .ok ()
    else
      match user with
      | none => .error ⟨403, "Usuario no autenticado"⟩
      | some u =>
        if roles.any (fun r => u.role = r) then .ok ()
        else .error ⟨403, denialMessage roles⟩

/-! ## AuthValidator: JwtAuthGuard (roles.guard.ts, lines 85-101) -/

/-- Outcome of the bearer-token verification performed before
`JwtStrategy.validate` runs.  Modelled from the spec: token extraction from
the Authorization header, HMAC-SHA256 signature verification and the expiry
check (steps (a)-(c) of §4.2) are carried out by the passport-jwt library,
which is not part of this repository's sources; each failure yields 401. -/
inductive JwtVerification
  | noToken
  | badSignature
  | expired
  | verified (p : JwtPayload)
  deriving Repr, DecidableEq

/-- Embeds `JwtAuthGuard.canActivate` (roles.guard.ts, lines 85-101) composed
with the passport jwt flow: a route marked `@Public` returns `true` without
looking at the token (and hence never attaches a user); a protected route
requires a fully verified token, running `JwtStrategy.validate` on the payload
and attaching the resulting user to the request. -/
def jwtAuthGuard (expectedAudience : Option String) (isPublic : Bool)
    (jwt : JwtVerification) : Except HttpError (Option AuthenticatedUser) :=
  if isPublic then .ok none
  else
    match jwt with
    | .noToken => .error ⟨401, "Unauthorized"⟩
    | .badSignature => .error ⟨401, "Unauthorized"⟩
    | .expired => .error ⟨401, "Unauthorized"⟩
    | .verified p => (jwtStrategyValidate expectedAudience p).map some

/-! ## ServiceRegistry and header handling (proxy.service.ts, services.constants.ts) -/

/-- The per-backend base URLs and the configured JWT audience.  Field defaults
are the fallbacks passed to `configService.get` (proxy.service.ts, lines 37-48)
and to the audience lookup (part_006). -/
structure GatewayConfig where
  restUrl : String := "http://localhost:8080"
  graphqlUrl : String := "http://localhost:8000"
  paymentsUrl : String := "http://localhost:8001"
  websocketUrl : String := "http://localhost:4000"
  authUrl : String := "http://localhost:8090"
  mcpUrl : String := "http://localhost:8002"
  jwtAudience : Option String := some "authenticated"
  deriving Repr, DecidableEq

/-- ASCII lowercasing of one character, as `toLowerCase` acts on the ASCII
service names used here. -/
def lowerChar (c : Char) : Char :=
  if c.isUpper then Char.ofNat (c.toNat + 32) else c

/-- ASCII `String.prototype.toLowerCase` (the logical service names are
ASCII-only). -/
def jsToLower (s : String) : String :=
  String.mk (s.data.map lowerChar)

/-- Embeds `ProxyService.getServiceUrl` (proxy.service.ts, lines 37-48):
lowercased lookup in the url map, `''` for an unknown logical name. -/
def getServiceUrl (cfg : GatewayConfig) (serviceName : String) : String :=
  let s := jsToLower serviceName
  if s = "rest" then cfg.restUrl
  else if s = "graphql" then cfg.graphqlUrl
  else if s = "payments" then cfg.paymentsUrl
  else if s = "websocket" then cfg.websocketUrl
  else if s = "auth" then cfg.authUrl
  else if s = "mcp" then cfg.mcpUrl
  else ""

/-- A JS object holding headers, as an association list in insertion order
(keys are case-sensitive object keys, unique by construction of `hset`). -/
def hget : List (String × String) → String → Option String
  | [], _ => none
  | (k2, v) :: rest, k => if k2 = k then some v else hget rest k

/-- JS object assignment `obj[k] = v`: overwrite in place or append. -/
def hset : List (String × String) → String → String → List (String × String)
  | [], k, v => [(k, v)]
  | (k2, v2) :: rest, k, v =>
      if k2 = k then (k, v) :: rest else (k2, v2) :: hset rest k v

/-- Embeds `PROPAGATED_HEADERS` (services.constants.ts, lines 61-69). -/
def PROPAGATED_HEADERS : List String :=
  ["authorization", "content-type", "accept", "x-request-id",
   "x-forwarded-for", "x-real-ip", "user-agent"]

/-- One step of the propagation loop in `ProxyService.extractHeaders`
(proxy.service.ts, lines 57-62): copy header `h` when the inbound request
carries a truthy (non-empty) value for it. -/
def propagateStep (inbound : List (String × String))
    (acc : List (String × String)) (h : String) : List (String × String) :=
  match hget inbound h with
  | some v => if v ≠ "" then hset acc h v else acc
  | none => acc

/-- The propagation loop of `ProxyService.extractHeaders` (proxy.service.ts,
lines 56-62), starting from the empty headers object. -/
def baseHeaders (inbound : List (String × String)) : List (String × String) :=
  PROPAGATED_HEADERS.foldl (propagateStep inbound) []

/-- `Object.assign(headers, GATEWAY_HEADERS)` (proxy.service.ts, line 65;
services.constants.ts, lines 74-77). -/
def withGatewayHeaders (hs : List (String × String)) : List (String × String) :=
  hset (hset hs "X-Gateway" "love4pets-api-gateway") "X-Gateway-Version" "1.0.0"

/-- The request-id block of `extractHeaders` (proxy.service.ts, lines 67-70):
generate an id when none was propagated; `freshId` stands for the generated
`gw-<timestamp>-<random>` string. -/
def withRequestId (hs : List (String × String)) (freshId : String) :
    List (String × String) :=
  if strTruthy (hget hs "x-request-id") then hs
  else hset hs "x-request-id" freshId

/-- The JS idiom `if (value) headers[name] = value` on an optional value. -/
def setOptionalHeader (hs : List (String × String)) (name : String)
    (v : Option String) : List (String × String) :=
  match v with
  | some s => if s ≠ "" then hset hs name s else hs
  | none => hs

/-- The user-identity block of `extractHeaders` (proxy.service.ts, lines
72-79): when an authenticated user is attached, set id and role
unconditionally, then email and refugio when present (truthy). -/
def withUserHeaders (hs : List (String × String))
    (user : Option AuthenticatedUser) : List (String × String) :=
  match user with
  | none => hs
  | some u =>
    setOptionalHeader
      (setOptionalHeader
        (hset (hset hs "x-user-id" u.userId) "x-user-role" u.role)
        "x-user-email" u.email)
      "x-user-refugio" u.idRefugio

/-- Embeds `ProxyService.extractHeaders` (proxy.service.ts, lines 53-82) as
the composition of its four blocks, in source order. -/
def extractHeaders (inbound : List (String × String))
    (user : Option AuthenticatedUser) (freshId : String) :
    List (String × String) :=
  withUserHeaders (withRequestId (withGatewayHeaders (baseHeaders inbound)) freshId)
    user

/-! ## ProxyForwarder: ProxyService.forward (proxy.service.ts, lines 92-205) -/

/-- The data of an `AxiosError` inspected by `handleAxiosError`. -/
structure AxiosErrorModel where
  code : Option String
  response : Option (Nat × String)
  message : String
  deriving Repr, DecidableEq

/-- Outcome of the single outbound HTTP call made by `forward`.  Because the
request is configured with `validateStatus: () => true`, every received HTTP
status — including 4xx/5xx — resolves as a response; only transport-level
failures surface as errors. -/
inductive TransportOutcome
  | response (status : Nat) (body : String)
  | failure (e : AxiosErrorModel)
  deriving Repr, DecidableEq

/-- Embeds `ProxyService.handleAxiosError` (proxy.service.ts, lines 167-205):
connection refused becomes 503 naming the service, a timeout code becomes
504, a backend-attached response is re-raised with the backend status, and
anything else becomes a generic 502. -/
def handleAxiosError (e : AxiosErrorModel) (serviceName : String) : HttpError :=
  if e.code = some "ECONNREFUSED" then
    ⟨503, "Servicio \x27" ++ serviceName ++ "\x27 no disponible"⟩
  else if e.code = some "ETIMEDOUT" ∨ e.code = some "ECONNABORTED" then
    ⟨504, "Timeout conectando a \x27" ++ serviceName ++ "\x27"⟩
  else
    match e.response with
    | some (status, msg) => ⟨status, msg⟩
    | none =>
        ⟨502, "Error comunicando con \x27" ++ serviceName ++ "\x27: " ++ e.message⟩

/-- The `ProxyResponse` interface (proxy.service.ts, lines 12-16), headers
omitted: status and body relayed from the backend. -/
structure ProxyResponse where
  data : String
  status : Nat
  deriving Repr, DecidableEq

/-- Result of `ProxyService.forward`: the proxy outcome, plus whether an
outbound request was attempted at all. -/
structure ForwardResult where
  result : Except HttpError ProxyResponse
  outboundAttempted : Bool
  deriving Repr, DecidableEq

/-- Embeds `ProxyService.forward` (proxy.service.ts, lines 92-162): resolve the
base URL, failing fast with 502 when the logical name is unknown (no outbound
request is made); otherwise execute the single outbound call, relaying any
received status verbatim and translating transport failures through
`handleAxiosError`. -/
def forward (cfg : GatewayConfig) (serviceName path : String)
    (transport : TransportOutcome) : ForwardResult :=
  let baseUrl := getServiceUrl cfg serviceName
  if baseUrl = "" then
    { result := .error ⟨502, "Servicio \x27" ++ serviceName ++ "\x27 no configurado"⟩
      outboundAttempted := false }
  else
    match transport with
    | .response s b => { result := .ok ⟨b, s⟩, outboundAttempted := true }
    | .failure e =>
        { result := .error (handleAxiosError e serviceName)
          outboundAttempted := true }

/-! ## RequestPipeline: the global guard chain (config.module.ts, lines 272-294) -/

/-- The stages of the request pipeline, in the order the guards are
registered as `APP_GUARD` providers in `AppModule`. -/
inductive Stage
  | rateLimit
  | auth
  | roles
  | handler
  deriving Repr, DecidableEq

/-- What a route handler did: the status it answered with, and whether it
invoked `ProxyService.forward`. -/
structure HandlerResult where
  status : Nat
  forwardInvoked : Bool
  deriving Repr, DecidableEq

/-- Observable outcome of one request through the pipeline: which stages ran,
the final status, and whether `ProxyService.forward` was invoked. -/
structure PipelineResult where
  executed : List Stage
  status : Nat
  forwardInvoked : Bool
  deriving Repr, DecidableEq

/-- Embeds the global guard chain of `AppModule` (config.module.ts, lines
272-294): ThrottlerGuard, then JwtAuthGuard, then RolesGuard, then the route
handler.  Modelled from the spec (§4.5, §9): NestJS runs the globally
registered guards in registration order and stops at the first rejection,
whose status code becomes the response; this chaining semantics lives in the
framework, not in this repository's sources.  `rate` is the throttler's
decision for this request; the JWT guard attaches the authenticated user (if
any) for the roles guard and the handler to consume. -/
def runPipeline (cfg : GatewayConfig) (rate : Except HttpError Unit)
    (isPublic : Bool) (requiredRoles : Option (List String))
    (jwt : JwtVerification)
    (handler : Option AuthenticatedUser → HandlerResult) : PipelineResult :=
  match rate with
  | .error e => { executed := [.rateLimit], status := e.status, forwardInvoked := false }
  | .ok () =>
    match jwtAuthGuard cfg.jwtAudience isPublic jwt with
    | .error e =>
        { executed := [.rateLimit, .auth], status := e.status, forwardInvoked := false }
    | .ok user =>
      match rolesGuard requiredRoles user with
      | .error e =>
          { executed := [.rateLimit, .auth, .roles], status := e.status,
            forwardInvoked := false }
      | .ok () =>
        let h := handler user
        { executed := [.rateLimit, .auth, .roles, .handler], status := h.status,
          forwardInvoked := h.forwardInvoked }

/-- The status a controller answers with from a forward outcome:
`res.status(result.status)` on success, the exception status otherwise
(HttpExceptionFilter, services.constants.ts lines 110-174). -/
def resultStatus : Except HttpError ProxyResponse → Nat
  | .ok r => r.status
  | .error e => e.status

/-- Embeds `RestProxyController.proxyProtected` (src/unnamed/part_004, lines
183-200): without an attached user it answers 401 immediately and never calls
`ProxyService.forward`; with a user it forwards to the `rest` backend. -/
def proxyProtected (cfg : GatewayConfig) (path : String)
    (user : Option AuthenticatedUser) (transport : TransportOutcome) :
    HandlerResult :=
  match user with
  | none => { status := 401, forwardInvoked := false }
  | some _ =>
    let f := forward cfg "rest" path transport
    { status := resultStatus f.result, forwardInvoked := true }

/-- Embeds `RestProxyController.getAnimales` (src/unnamed/part_004, lines
55-65), a route marked `@Public`: a GET is forwarded publicly; any other
method falls through to `proxyProtected`. -/
def getAnimales (cfg : GatewayConfig) (method : String)
    (user : Option AuthenticatedUser) (transport : TransportOutcome) :
    HandlerResult :=
  if method = "GET" then
    let f := forward cfg "rest" "/api/animales" transport
    { status := resultStatus f.result, forwardInvoked := true }
  else proxyProtected cfg "/api/animales" user transport

/-! ## RateLimiter (config.module.ts, lines 246-262; admit logic from §4.1) -/

/-- One rate-limit tier: name, window length in ms, max requests. -/
structure Tier where
  name : String
  ttl : Nat
  limit : Nat
  deriving Repr, DecidableEq

/-- The three tiers registered with `ThrottlerModule.forRoot`
(config.module.ts, lines 246-262). -/
def throttlerTiers : List Tier :=
  [⟨"short", 1000, 10⟩, ⟨"medium", 10000, 50⟩, ⟨"long", 60000, 100⟩]

/-- Fixed-window counter state of one (client key, tier) pair. -/
structure TierState where
  windowStart : Nat
  count : Nat
  deriving Repr, DecidableEq

/-- Modelled from the spec (§3, §4.1): one fixed-window counter step.  The
counter logic lives in the @nestjs/throttler library, not in this
repository's sources.  The counter resets once `ttl` has elapsed since the
window's first hit, and every attempt increments it. -/
def tierStep (ttl : Nat) (st : Option TierState) (now : Nat) : TierState :=
  match st with
  | none => ⟨now, 1⟩
  | some s =>
      if s.windowStart + ttl ≤ now then ⟨now, 1⟩
      else ⟨s.windowStart, s.count + 1⟩

/-- Modelled from the spec (§4.1): `admit(key)` for one client key, whose
per-tier states are listed in the order of `tiers`.  All tiers are stepped
for the attempt; the request is admitted only if no tier's incremented
counter exceeds its max; on rejection the first violated tier's name and its
remaining window time (the retry-after hint) are reported. -/
def admitOne (tiers : List Tier) (sts : List (Option TierState)) (now : Nat) :
    List TierState × Option (String × Nat) :=
  let stepped := (tiers.zip sts).map (fun p => (p.1, tierStep p.1.ttl p.2 now))
  let violated := stepped.filter (fun p => p.1.limit < p.2.count)
  (stepped.map (fun p => p.2),
   match violated with
   | [] => none
   | p :: _ => some (p.1.name, p.2.windowStart + p.1.ttl - now))

/-- Modelled from the spec (§7): the ThrottlerGuard (library code) turns a
rejected admit into HTTP 429. -/
def throttlerStage (rejection : Option (String × Nat)) : Except HttpError Unit :=
  match rejection with
  | none => .ok ()
  | some _ => .error ⟨429, "ThrottlerException: Too Many Requests"⟩

/-- Runs a sequence of admit attempts (same client key) at the given times,
threading the per-tier states; returns the final states and the per-request
rejection info. -/
def runAdmits (tiers : List Tier) :
    List Nat → List (Option TierState) →
    List (Option TierState) × List (Option (String × Nat))
  | [], sts => (sts, [])
  | t :: ts, sts =>
    let r := admitOne tiers sts t
    let rest := runAdmits tiers ts (r.1.map some)
    (rest.1, r.2 :: rest.2)

/-- Tier states of a fresh client key. -/
def startStates : List (Option TierState) := [none, none, none]

/-- Tier states of one client key after attempts at the given times. -/
def statesAfter (times : List Nat) : List (Option TierState) :=
  (runAdmits throttlerTiers times startStates).1

/-! ## HealthAggregator (src/unnamed/part_001) -/

/-- Outcome of one liveness probe (`pingCheck`). -/
inductive ProbeOutcome
  | healthy
  | unreachable (msg : String)
  deriving Repr, DecidableEq

/-- Aggregate health result: overall status plus per-service detail. -/
structure HealthCheckResult where
  status : String
  details : List (String × String)
  deriving Repr, DecidableEq

/-- Modelled from the spec (§4.6): `HealthCheckService.check` of
@nestjs/terminus (library code, not in this repository's sources) runs every
indicator and merges the results per service; a failing probe contributes its
own entry without suppressing any other indicator's result, and the overall
status is ok iff every probe succeeded. -/
def healthCheck (indicators : List (String × ProbeOutcome)) : HealthCheckResult :=
  { status := if indicators.all (fun i => i.2 = .healthy) then "ok" else "error"
    details := indicators.map (fun i =>
      (i.1, match i.2 with | .healthy => "up" | .unreachable _ => "down")) }

/-- Embeds `HealthController.checkAll` (src/unnamed/part_001, lines 53-68):
three named `pingCheck` indicators — rest-api, graphql-api, payments-service —
passed together to `health.check`.  `probe` gives each backend's outcome. -/
def checkAll (probe : String → ProbeOutcome) : HealthCheckResult :=
  healthCheck
    [("rest-api", probe "rest-api"),
     ("graphql-api", probe "graphql-api"),
     ("payments-service", probe "payments-service")]

/-- Per-service detail of a health result. -/
def detailOf (r : HealthCheckResult) (service : String) : Option String :=
  hget r.details service

/-! ## Multipart forwarding (proxy.service.ts, lines 270-324) -/

/-- A multer-parsed uploaded file as consumed by `proxyMultipartRequest`. -/
structure UploadedFile where
  fieldname : String
  originalname : String
  mimetype : String
  buffer : List Nat
  deriving Repr, DecidableEq

/-- One part of an outgoing multipart body. -/
structure MultipartPart where
  name : String
  content : List Nat ⊕ String
  filename : Option String
  contentType : Option String
  deriving Repr, DecidableEq

/-- Embeds the body construction of `ProxyService.proxyMultipartRequest`
(proxy.service.ts, lines 277-291): every `req.body` field is appended to a
fresh FormData in order (string parts carry no explicit content type, as in
the inbound form), then the optional uploaded file is appended under the
field name `image` with its original filename and mimetype. -/
def buildMultipartBody (body : List (String × String))
    (file : Option UploadedFile) : List MultipartPart :=
  body.map (fun kv =>
    { name := kv.1, content := .inr kv.2, filename := none, contentType := none })
  ++ (match file with
      | some f =>
          [{ name := "image", content := .inl f.buffer,
             filename := some f.originalname, contentType := some f.mimetype }]
      | none => [])

/-! ## Spec-side description of the outbound header map -/

/-- Follows the spec's words (§6 header contract and its exactness reading),
not the source, for comparison with `extractHeaders`: the outbound map holds
the allow-listed inbound headers that were present, the two fixed gateway
headers, one request id (the inbound one when present, otherwise the fresh
one), and the user-identity headers exactly when a user is attached. -/
def specOutboundHeaders (inbound : List (String × String))
    (user : Option AuthenticatedUser) (freshId : String) (h : String) :
    Option String :=
  if h = "X-Gateway" then some "love4pets-api-gateway"
  else if h = "X-Gateway-Version" then some "1.0.0"
  else if h = "x-request-id" then
    some (match hget inbound "x-request-id" with | some v => v | none => freshId)
  else if h = "x-user-id" then user.map (fun u => u.userId)
  else if h = "x-user-role" then user.map (fun u => u.role)
  else if h = "x-user-email" then user.bind (fun u => u.email)
  else if h = "x-user-refugio" then user.bind (fun u => u.idRefugio)
  else if h ∈ PROPAGATED_HEADERS then hget inbound h
  else none

/-! ## Helper lemmas -/

theorem joinOr_contains (roles : List String) (r : String) (h : r ∈ roles) :
    ∃ pre post, joinOr roles = pre ++ r ++ post := by
  induction roles with
  | nil => cases h
  | cons x rest ih =>
    rcases List.mem_cons.mp h with hx | hr
    · subst hx
      cases rest with
      | nil => exact ⟨"", "", by simp [joinOr]⟩
      | cons y rest2 =>
        exact ⟨"", " o " ++ joinOr (y :: rest2), by simp [joinOr, String.append_assoc]⟩
    · obtain ⟨pre, post, hp⟩ := ih hr
      cases rest with
      | nil => cases hr
      | cons y rest2 =>
        refine ⟨x ++ " o " ++ pre, post, ?_⟩
        simp [joinOr, hp, String.append_assoc]

theorem hget_mem (l : List (String × String)) (k v : String)
    (h : hget l k = some v) : (k, v) ∈ l := by
  induction l with
  | nil => simp [hget] at h
  | cons p rest ih =>
    obtain ⟨a, b⟩ := p
    by_cases ha : a = k
    · subst ha
      simp [hget] at h
      simp [h]
    · simp [hget, ha] at h
      exact List.mem_cons_of_mem _ (ih h)

theorem hget_hset (hs : List (String × String)) (k v q : String) :
    hget (hset hs k v) q = if q = k then some v else hget hs q := by
  induction hs with
  | nil =>
    by_cases h : q = k
    · subst h; simp [hset, hget]
    · have h2 : ¬ (k = q) := fun hh => h hh.symm
      simp [hset, hget, h, h2]
  | cons p rest ih =>
    obtain ⟨a, b⟩ := p
    by_cases ha : a = k
    · subst ha
      by_cases hq : a = q
      · subst hq
        simp [hset, hget]
      · have hq2 : ¬ (q = a) := fun hh => hq hh.symm
        simp [hset, hget, hq, hq2]
    · by_cases hq : a = q
      · subst hq
        have hk2 : ¬ (k = a) := fun hh => ha hh.symm
        simp [hset, hget, ha, hk2]
      · simp [hset, hget, ha, hq, ih]

theorem keys_hset (hs : List (String × String)) (k v : String) :
    (hset hs k v).map Prod.fst =
      if k ∈ hs.map Prod.fst then hs.map Prod.fst
      else hs.map Prod.fst ++ [k] := by
  induction hs with
  | nil => simp [hset]
  | cons p rest ih =>
    obtain ⟨a, b⟩ := p
    by_cases ha : a = k
    · subst ha
      simp [hset]
    · have ha2 : ¬ (k = a) := fun hh => ha hh.symm
      by_cases hk : k ∈ rest.map Prod.fst
      · simp [hset, ha, ha2, hk, ih]
      · simp [hset, ha, ha2, hk, ih]

theorem nodup_keys_hset (hs : List (String × String)) (k v : String)
    (h : (hs.map Prod.fst).Nodup) : ((hset hs k v).map Prod.fst).Nodup := by
  rw [keys_hset]
  split_ifs with hk
  · exact h
  · simp [List.nodup_append, h, hk]

theorem audienceOk_iff (ea : Option String) (aud : Option AudClaim) :
    audienceOk ea aud = true ↔
      ∀ a c, ea = some a → a ≠ "" → aud = some c → audClaimTruthy c = true →
        a ∈ audList c := by
  cases ea with
  | none => simp [audienceOk]
  | some a =>
    cases aud with
    | none => simp [audienceOk]
    | some c =>
      by_cases hne : a = ""
      · simp [audienceOk, hne]
      · by_cases htr : audClaimTruthy c = true
        · simp [audienceOk, hne, htr, List.contains, List.elem_iff]
        · simp [audienceOk, hne, htr]

/-! ## Claim C3: forward error taxonomy -/

/-- C3: `forward` fails with 502 before any outbound request when the logical
service name resolves to no base URL; any received backend status (4xx/5xx
included) is relayed as a successful proxy result; connection refused becomes
503 with the service name in the message; a deadline-exceeded transport
failure becomes 504. -/
theorem forward_error_taxonomy (cfg : GatewayConfig) (name path : String) :
    (getServiceUrl cfg name = "" →
      ∀ transport, (forward cfg name path transport).outboundAttempted = false ∧
        (forward cfg name path transport).result =
          .error ⟨502, "Servicio \x27" ++ name ++ "\x27 no configurado"⟩) ∧
    (getServiceUrl cfg name ≠ "" →
      (∀ s b, (forward cfg name path (.response s b)).result = .ok ⟨b, s⟩ ∧
              (forward cfg name path (.response s b)).outboundAttempted = true) ∧
      (∀ e : AxiosErrorModel, e.code = some "ECONNREFUSED" →
        (forward cfg name path (.failure e)).result =
          .error ⟨503, "Servicio \x27" ++ name ++ "\x27 no disponible"⟩ ∧
        ∃ pre post,
          "Servicio \x27" ++ name ++ "\x27 no disponible" = pre ++ name ++ post) ∧
      (∀ e : AxiosErrorModel,
        e.code = some "ETIMEDOUT" ∨ e.code = some "ECONNABORTED" →
        (forward cfg name path (.failure e)).result =
          .error ⟨504, "Timeout conectando a \x27" ++ name ++ "\x27"⟩)) := by
  refine ⟨fun h0 transport => ?_, fun h0 => ⟨fun s b => ?_, fun e he => ?_, fun e he => ?_⟩⟩
  · simp [forward, h0]
  · simp [forward, h0]
  · refine ⟨?_, "Servicio \x27", "\x27 no disponible", by simp [String.append_assoc]⟩
    simp [forward, h0, handleAxiosError, he]
  · rcases he with he | he <;> simp [forward, h0, handleAxiosError, he]

/-- C3 witness: concrete instances of each branch of the taxonomy. -/
theorem forward_error_taxonomy_witness :
    ((forward {} "unknown" "/x" (.response 200 "ok")).outboundAttempted = false ∧
     (forward {} "unknown" "/x" (.response 200 "ok")).result =
       .error ⟨502, "Servicio \x27unknown\x27 no configurado"⟩) ∧
    ((forward {} "rest" "/x" (.response 404 "nf")).result = .ok ⟨"nf", 404⟩ ∧
     (forward {} "rest" "/x" (.response 404 "nf")).outboundAttempted = true) ∧
    (forward {} "rest" "/x"
        (.failure ⟨some "ECONNREFUSED", none, "refused"⟩)).result =
      .error ⟨503, "Servicio \x27rest\x27 no disponible"⟩ ∧
    (forward {} "rest" "/x" (.failure ⟨some "ETIMEDOUT", none, "t"⟩)).result =
      .error ⟨504, "Timeout conectando a \x27rest\x27"⟩ := by
  have h1 := (forward_error_taxonomy {} "unknown" "/x").1 (by decide)
      (.response 200 "ok")
  have h2 := (forward_error_taxonomy {} "rest" "/x").2 (by decide)
  exact ⟨⟨h1.1, h1.2⟩, h2.1 404 "nf",
    (h2.2.1 ⟨some "ECONNREFUSED", none, "refused"⟩ rfl).1,
    h2.2.2 ⟨some "ETIMEDOUT", none, "t"⟩ (Or.inl rfl)⟩

/-! ## Claim C4: token payload validation (corrected) -/

/-- C4 counterexample: with expected audience `authenticated` configured and a
payload that carries an audience claim (the empty string) not containing the
expected value, `JwtStrategy.validate` nevertheless accepts the token —
JavaScript truthiness treats the empty-string `aud` as absent — and the
payload's empty-string role is replaced by `normal` rather than kept.  This
contradicts the claim as stated. -/
theorem jwt_validate_empty_audience_counterexample :
    jwtStrategyValidate (some "authenticated")
      { sub := some "u1", email := none, role := some "", iat := none,
        exp := none, iss := none, aud := some (.one ""), id_refugio := none,
        nombre := none } =
      .ok { userId := "u1", email := none, role := "normal", idRefugio := none,
            nombre := none } ∧
    ¬ ("authenticated" ∈ audList (.one "")) := by decide

/-- C4 (amended): after signature and expiry checks, validation rejects with
401 when the subject claim is absent or empty; when a non-empty expected
audience is configured and the payload carries a truthy audience claim (a
non-empty string, or an array), it rejects with 401 unless the expected value
is among the claim's value or set of values; otherwise it returns an identity
whose role is the payload's role, defaulting to `normal` when the role claim
is absent or empty. -/
theorem jwt_validate_payload_rules (ea : Option String) (p : JwtPayload) :
    (strTruthy p.sub = false →
        jwtStrategyValidate ea p =
          .error ⟨401, "Token inválido: falta identificador de usuario"⟩) ∧
    (∀ s, p.sub = some s → s ≠ "" →
      (∀ a c, ea = some a → a ≠ "" → p.aud = some c → audClaimTruthy c = true →
          a ∉ audList c →
          jwtStrategyValidate ea p =
            .error ⟨401, "Token inválido: audiencia incorrecta"⟩) ∧
      ((∀ a c, ea = some a → a ≠ "" → p.aud = some c → audClaimTruthy c = true →
          a ∈ audList c) →
        jwtStrategyValidate ea p =
          .ok { userId := s, email := p.email, role := jsOr p.role "normal",
                idRefugio := p.id_refugio, nombre := p.nombre })) := by
  constructor
  · intro hfalsy
    simp [jwtStrategyValidate, hfalsy]
  · intro s hs hs2
    have htruthy : strTruthy p.sub = true := by simp [strTruthy, hs, hs2]
    constructor
    · intro a c hea hne haud htr hmem
      have hbad : audienceOk ea p.aud = false := by
        simp [audienceOk, hea, haud, hne, htr, List.contains, List.elem_iff, hmem]
      simp [jwtStrategyValidate, htruthy, hbad]
    · intro hok
      have hgood : audienceOk ea p.aud = true := (audienceOk_iff ea p.aud).mpr hok
      simp [jwtStrategyValidate, htruthy, hgood, hs, strTruthy, hs2]

/-- C4 witness: the spec's concrete accepted-token scenario — subject `u1`,
role `admin`, audience `authenticated` against configured audience
`authenticated` — yields the identity with userId `u1` and role `admin`. -/
theorem jwt_validate_payload_rules_witness :
    jwtStrategyValidate (some "authenticated")
      { sub := some "u1", email := none, role := some "admin", iat := none,
        exp := none, iss := none, aud := some (.one "authenticated"),
        id_refugio := none, nombre := none } =
      .ok { userId := "u1", email := none, role := "admin", idRefugio := none,
            nombre := none } := by
  have h := ((jwt_validate_payload_rules (some "authenticated")
      { sub := some "u1", email := none, role := some "admin", iat := none,
        exp := none, iss := none, aud := some (.one "authenticated"),
        id_refugio := none, nombre := none }).2 "u1" rfl (by decide)).2
      (by intro a c hea hne haud htr; cases hea; cases haud; decide)
  exact h.trans (by decide)

/-! ## Claim C5: role authorization -/

/-- C5: a missing or empty required-role list allows unconditionally; when
roles are declared and an authenticated identity is attached, the request
proceeds iff the identity's role is one of them, and otherwise is denied with
403 and a message naming every accepted role. -/
theorem roles_guard_claim (requiredRoles : Option (List String))
    (user : Option AuthenticatedUser) :
    (requiredRoles = none ∨ requiredRoles = some [] →
        rolesGuard requiredRoles user = .ok ()) ∧
    (∀ roles u, requiredRoles = some roles → roles ≠ [] → user = some u →
      (u.role ∈ roles → rolesGuard requiredRoles user = .ok ()) ∧
      (u.role ∉ roles →
        rolesGuard requiredRoles user = .error ⟨403, denialMessage roles⟩ ∧
        ∀ r ∈ roles, ∃ pre post, denialMessage roles = pre ++ r ++ post)) := by
  constructor
  · rintro (h | h) <;> subst h <;> simp [rolesGuard]
  · rintro roles u rfl hne rfl
    constructor
    · intro hmem
      have hany : roles.any (fun r => u.role = r) = true := by
        rw [List.any_eq_true]
        exact ⟨u.role, hmem, by simp⟩
      simp [rolesGuard, hne, hany]
    · intro hmem
      have hany : roles.any (fun r => u.role = r) = false := by
        rw [List.any_eq_false]
        intro r hr
        simp only [decide_eq_true_eq]
        intro he
        exact hmem (he ▸ hr)
      refine ⟨by simp [rolesGuard, hne, hany], fun r hr => ?_⟩
      obtain ⟨pre, post, hp⟩ := joinOr_contains roles r hr
      exact ⟨"Acceso denegado. Rol requerido: " ++ pre, post, by
        simp [denialMessage, hp, String.append_assoc]⟩

/-- C5 witness: with required roles `admin`/`refugio`, a `refugio` identity
proceeds while a `normal` identity is denied with 403 and the message naming
both accepted roles. -/
theorem roles_guard_claim_witness :
    rolesGuard (some ["admin", "refugio"])
      (some { userId := "u1", email := none, role := "refugio",
              idRefugio := none, nombre := none }) = .ok () ∧
    rolesGuard (some ["admin", "refugio"])
      (some { userId := "u2", email := none, role := "normal",
              idRefugio := none, nombre := none }) =
      .error ⟨403, "Acceso denegado. Rol requerido: admin o refugio"⟩ := by
  constructor
  · exact ((roles_guard_claim (some ["admin", "refugio"]) _).2
      ["admin", "refugio"]
      { userId := "u1", email := none, role := "refugio",
        idRefugio := none, nombre := none } rfl (by decide) rfl).1 (by decide)
  · exact (((roles_guard_claim (some ["admin", "refugio"]) _).2
      ["admin", "refugio"]
      { userId := "u2", email := none, role := "normal",
        idRefugio := none, nombre := none } rfl (by decide) rfl).2
      (by decide)).1.trans (by decide)

/-! ## Claim C9: multipart body construction -/

/-- C9: the forwarded multipart body consists of the original form's fields
(names and values unchanged, in order) followed by the optional uploaded file
part, which keeps the inbound file's field name (`FileInterceptor` fixes it to
`image`), original filename, and content type byte-for-byte. -/
theorem multipart_preserves_fields (body : List (String × String))
    (f : UploadedFile) (hf : f.fieldname = "image") :
    (buildMultipartBody body (some f)).map MultipartPart.name =
        body.map Prod.fst ++ [f.fieldname] ∧
    (buildMultipartBody body (some f)).map MultipartPart.content =
        body.map (fun kv => Sum.inr kv.2) ++ [Sum.inl f.buffer] ∧
    (buildMultipartBody body (some f)).map MultipartPart.contentType =
        body.map (fun _ => (none : Option String)) ++ [some f.mimetype] ∧
    (buildMultipartBody body (some f)).map MultipartPart.filename =
        body.map (fun _ => (none : Option String)) ++ [some f.originalname] ∧
    (buildMultipartBody body none).map MultipartPart.name = body.map Prod.fst := by
  rw [hf]
  refine ⟨?_, ?_, ?_, ?_, ?_⟩ <;>
    simp [buildMultipartBody, Function.comp_def, List.map_const]

/-- C9 witness: a concrete two-field form plus an uploaded PNG keeps field
names, values, filename and mimetype. -/
theorem multipart_preserves_fields_witness :
    (buildMultipartBody [("titulo", "Rex"), ("edad", "3")]
        (some ⟨"image", "rex.png", "image/png", [137, 80]⟩)).map
        MultipartPart.name = ["titulo", "edad", "image"] ∧
    (buildMultipartBody [("titulo", "Rex"), ("edad", "3")]
        (some ⟨"image", "rex.png", "image/png", [137, 80]⟩)).map
        MultipartPart.contentType = [none, none, some "image/png"] := by
  have h := multipart_preserves_fields [("titulo", "Rex"), ("edad", "3")]
      ⟨"image", "rex.png", "image/png", [137, 80]⟩ rfl
  exact ⟨h.1.trans (by decide), h.2.2.1.trans (by decide)⟩

/-! ## Claim C2: pipeline stage order and short-circuiting -/

/-- C2: within one request the stages run in the fixed order rate limiting,
JWT authentication, role authorization, route handler; whichever stage
rejects first terminates the pipeline with its own status code and no later
stage (in particular no forwarding) executes; when no stage rejects, all four
stages run and the handler's outcome is the response. -/
theorem pipeline_order_and_short_circuit (cfg : GatewayConfig)
    (rate : Except HttpError Unit) (isPublic : Bool)
    (requiredRoles : Option (List String)) (jwt : JwtVerification)
    (handler : Option AuthenticatedUser → HandlerResult) :
    (∀ e, rate = .error e →
      runPipeline cfg rate isPublic requiredRoles jwt handler =
        ⟨[.rateLimit], e.status, false⟩) ∧
    (∀ e, rate = .ok () → jwtAuthGuard cfg.jwtAudience isPublic jwt = .error e →
      runPipeline cfg rate isPublic requiredRoles jwt handler =
        ⟨[.rateLimit, .auth], e.status, false⟩) ∧
    (∀ user e, rate = .ok () →
      jwtAuthGuard cfg.jwtAudience isPublic jwt = .ok user →
      rolesGuard requiredRoles user = .error e →
      runPipeline cfg rate isPublic requiredRoles jwt handler =
        ⟨[.rateLimit, .auth, .roles], e.status, false⟩) ∧
    (∀ user, rate = .ok () →
      jwtAuthGuard cfg.jwtAudience isPublic jwt = .ok user →
      rolesGuard requiredRoles user = .ok () →
      runPipeline cfg rate isPublic requiredRoles jwt handler =
        ⟨[.rateLimit, .auth, .roles, .handler],
         (handler user).status, (handler user).forwardInvoked⟩) := by
  refine ⟨?_, ?_, ?_, ?_⟩
  · rintro e rfl
    simp [runPipeline]
  · rintro e rfl hj
    simp [runPipeline, hj]
  · rintro user e rfl hj hr
    simp [runPipeline, hj, hr]
  · rintro user rfl hj hr
    simp [runPipeline, hj, hr]

/-- C2 witness: a throttler rejection stops the pipeline at the first stage
with 429; with every stage passing, all four stages run and the handler's
result is returned. -/
theorem pipeline_order_and_short_circuit_witness :
    runPipeline {} (.error ⟨429, "ThrottlerException: Too Many Requests"⟩)
      true none .noToken (fun _ => ⟨200, true⟩) =
      ⟨[.rateLimit], 429, false⟩ ∧
    runPipeline {} (.ok ()) true none .noToken (fun _ => ⟨200, true⟩) =
      ⟨[.rateLimit, .auth, .roles, .handler], 200, true⟩ := by
  constructor
  · exact (pipeline_order_and_short_circuit {} _ true none .noToken _).1
      ⟨429, "ThrottlerException: Too Many Requests"⟩ rfl
  · exact (pipeline_order_and_short_circuit {} _ true none .noToken _).2.2.2
      none rfl rfl rfl

/-! ## Claim C1: public routes skip authentication, protected routes reject bad tokens -/

/-- C1: on a public route the JWT guard passes without inspecting the token
(same `ok none` outcome for every token state, in particular for a request
with no Authorization header); on a protected route a missing, malformed
(bad-signature) or expired bearer token terminates the pipeline with 401, the
handler never runs, and `ProxyService.forward` is never invoked. -/
theorem public_passes_protected_rejects (cfg : GatewayConfig)
    (requiredRoles : Option (List String))
    (handler : Option AuthenticatedUser → HandlerResult)
    (jwt : JwtVerification)
    (hbad : jwt = .noToken ∨ jwt = .badSignature ∨ jwt = .expired) :
    (∀ j, jwtAuthGuard cfg.jwtAudience true j = .ok none) ∧
    ((runPipeline cfg (.ok ()) false requiredRoles jwt handler).status = 401 ∧
     (runPipeline cfg (.ok ()) false requiredRoles jwt handler).forwardInvoked
       = false ∧
     Stage.handler ∉
       (runPipeline cfg (.ok ()) false requiredRoles jwt handler).executed) := by
  refine ⟨fun j => by simp [jwtAuthGuard], ?_⟩
  rcases hbad with h | h | h <;> subst h <;>
    simp [runPipeline, jwtAuthGuard]

/-- C1 witness: with no Authorization header, a public route passes the guard
while a protected route answers 401 without reaching the handler. -/
theorem public_passes_protected_rejects_witness :
    jwtAuthGuard (GatewayConfig.jwtAudience {}) true .noToken = .ok none ∧
    ((runPipeline {} (.ok ()) false none .noToken
        (fun _ => ⟨200, true⟩)).status = 401 ∧
     (runPipeline {} (.ok ()) false none .noToken
        (fun _ => ⟨200, true⟩)).forwardInvoked = false ∧
     Stage.handler ∉
       (runPipeline {} (.ok ()) false none .noToken
          (fun _ => ⟨200, true⟩)).executed) := by
  have h := public_passes_protected_rejects {} none (fun _ => ⟨200, true⟩)
      .noToken (Or.inl rfl)
  exact ⟨h.1 .noToken, h.2⟩

/-! ## Claim C10: public-marked non-GET /api handlers always answer 401 -/

/-- C10: a non-GET request to a handler that is marked public but delegates
non-GET methods to `proxyProtected` (such as POST /api/animales) is answered
401 for every token state — even a fully valid token — because the public
marking makes the JWT guard skip validation, so no user is attached and the
protected helper's user check fails; `ProxyService.forward` is never invoked. -/
theorem public_marked_post_rejected (cfg : GatewayConfig) (method : String)
    (jwt : JwtVerification) (transport : TransportOutcome)
    (hm : method ≠ "GET") :
    (runPipeline cfg (.ok ()) true none jwt
        (fun user => getAnimales cfg method user transport)).status = 401 ∧
    (runPipeline cfg (.ok ()) true none jwt
        (fun user => getAnimales cfg method user transport)).forwardInvoked
      = false := by
  simp [runPipeline, jwtAuthGuard, rolesGuard, getAnimales, proxyProtected, hm]

/-- C10 witness: a POST to the animales route carrying a fully valid admin
token is still answered 401 and never forwarded. -/
theorem public_marked_post_rejected_witness :
    (runPipeline {} (.ok ()) true none
        (.verified { sub := some "u1", email := none, role := some "admin",
                     iat := none, exp := none, iss := none,
                     aud := some (.one "authenticated"), id_refugio := none,
                     nombre := none })
        (fun user => getAnimales {} "POST" user (.response 201 "created"))).status
      = 401 ∧
    (runPipeline {} (.ok ()) true none
        (.verified { sub := some "u1", email := none, role := some "admin",
                     iat := none, exp := none, iss := none,
                     aud := some (.one "authenticated"), id_refugio := none,
                     nombre := none })
        (fun user => getAnimales {} "POST" user
          (.response 201 "created"))).forwardInvoked = false := by
  exact public_marked_post_rejected {} "POST"
    (.verified { sub := some "u1", email := none, role := some "admin",
                 iat := none, exp := none, iss := none,
                 aud := some (.one "authenticated"), id_refugio := none,
                 nombre := none })
    (.response 201 "created") (by decide)

/-! ## Claim C8: health aggregation is per-service and independent -/

/-- C8: `checkAll` reports one entry per probed backend; with exactly one of
the three backends down, that entry reports down while the two healthy ones
report up (the overall status is degraded without hiding them); and each
service's entry depends only on that service's own probe outcome. -/
theorem health_checkAll_per_service (probe : String → ProbeOutcome)
    (down msg : String)
    (hmem : down ∈ ["rest-api", "graphql-api", "payments-service"])
    (hdown : probe down = .unreachable msg)
    (hup : ∀ s ∈ ["rest-api", "graphql-api", "payments-service"],
        s ≠ down → probe s = .healthy) :
    (checkAll probe).details =
      ["rest-api", "graphql-api", "payments-service"].map
        (fun s => (s, if s = down then "down" else "up")) ∧
    (checkAll probe).status = "error" ∧
    (∀ q : String → ProbeOutcome, ∀ s, probe s = q s →
        detailOf (checkAll probe) s = detailOf (checkAll q) s) := by
  refine ⟨?_, ?_, ?_⟩
  · simp only [List.mem_cons, List.not_mem_nil, or_false] at hmem
    rcases hmem with h | h | h <;> subst h <;>
      simp_all [checkAll, healthCheck]
  · simp only [List.mem_cons, List.not_mem_nil, or_false] at hmem
    rcases hmem with h | h | h <;> subst h <;>
      simp [checkAll, healthCheck, hdown]
  · intro q s hpq
    by_cases h1 : "rest-api" = s
    · subst h1
      simp [detailOf, checkAll, healthCheck, hget, hpq]
    · by_cases h2 : "graphql-api" = s
      · subst h2
        simp [detailOf, checkAll, healthCheck, hget, h1, hpq]
      · by_cases h3 : "payments-service" = s
        · subst h3
          simp [detailOf, checkAll, healthCheck, hget, h1, h2, hpq]
        · simp [detailOf, checkAll, healthCheck, hget, h1, h2, h3]

/-- C8 witness: with the graphql backend down and the other two up, the
result lists the two healthy backends as up and graphql as down. -/
theorem health_checkAll_per_service_witness :
    (checkAll (fun s => if s = "graphql-api"
        then .unreachable "connect ECONNREFUSED" else .healthy)).details =
      [("rest-api", "up"), ("graphql-api", "down"), ("payments-service", "up")] ∧
    (checkAll (fun s => if s = "graphql-api"
        then .unreachable "connect ECONNREFUSED" else .healthy)).status
      = "error" := by
  have h := health_checkAll_per_service
      (fun s => if s = "graphql-api"
        then .unreachable "connect ECONNREFUSED" else .healthy)
      "graphql-api" "connect ECONNREFUSED" (by decide) (by decide) (by decide)
  exact ⟨h.1.trans (by decide), h.2.1⟩

/-! ## Claim C6: exact outbound header map -/

theorem hget_propagateStep_ne (inbound init : List (String × String))
    (n h : String) (hne : h ≠ n) :
    hget (propagateStep inbound init n) h = hget init h := by
  unfold propagateStep
  cases hv : hget inbound n with
  | none => rfl
  | some v =>
    by_cases hvz : v = ""
    · simp [hvz]
    · simp [hvz, hget_hset, hne]

theorem hget_propagate (inbound : List (String × String)) (names : List String)
    (init : List (String × String)) (h : String) :
    hget (names.foldl (propagateStep inbound) init) h =
      if h ∈ names ∧ strTruthy (hget inbound h) = true then hget inbound h
      else hget init h := by
  induction names generalizing init with
  | nil => simp
  | cons n ns ih =>
    rw [List.foldl_cons, ih]
    by_cases hmem : h ∈ ns ∧ strTruthy (hget inbound h) = true
    · rw [if_pos hmem, if_pos ⟨List.mem_cons_of_mem _ hmem.1, hmem.2⟩]
    · rw [if_neg hmem]
      by_cases he : h = n
      · subst he
        cases hv : hget inbound h with
        | none =>
          rw [if_neg (by simp [hv, strTruthy])]
          unfold propagateStep
          rw [hv]
        | some v =>
          by_cases hvz : v = ""
          · subst hvz
            rw [if_neg (by simp [hv, strTruthy])]
            unfold propagateStep
            rw [hv]
            simp
          · rw [if_pos ⟨List.mem_cons_self _ _, by simp [hv, strTruthy, hvz]⟩]
            unfold propagateStep
            rw [hv]
            simp [hvz, hget_hset]
      · rw [hget_propagateStep_ne inbound init n h he]
        rw [if_neg (by
          rintro ⟨hm, ht⟩
          rcases List.mem_cons.mp hm with hc | hc
          · exact he hc
          · exact hmem ⟨hc, ht⟩)]

theorem hget_base (inbound : List (String × String)) (h : String) :
    hget (baseHeaders inbound) h =
      if h ∈ PROPAGATED_HEADERS ∧ strTruthy (hget inbound h) = true
      then hget inbound h else none := by
  rw [baseHeaders, hget_propagate]
  rfl

theorem hget_withGateway (hs : List (String × String)) (h : String) :
    hget (withGatewayHeaders hs) h =
      if h = "X-Gateway-Version" then some "1.0.0"
      else if h = "X-Gateway" then some "love4pets-api-gateway"
      else hget hs h := by
  simp [withGatewayHeaders, hget_hset]

theorem hget_withRequestId (hs : List (String × String)) (freshId h : String) :
    hget (withRequestId hs freshId) h =
      if h = "x-request-id" then
        (if strTruthy (hget hs "x-request-id") = true
         then hget hs "x-request-id" else some freshId)
      else hget hs h := by
  unfold withRequestId
  by_cases ht : strTruthy (hget hs "x-request-id") = true
  · rw [if_pos (by simp [ht])]
    by_cases he : h = "x-request-id"
    · subst he; simp [ht]
    · simp [he]
  · rw [if_neg (by simp [ht])]
    by_cases he : h = "x-request-id"
    · subst he; simp [hget_hset, ht]
    · simp [hget_hset, he, ht]

theorem nodup_keys_propagate (inbound : List (String × String))
    (names : List String) (init : List (String × String))
    (h : (init.map Prod.fst).Nodup) :
    ((names.foldl (propagateStep inbound) init).map Prod.fst).Nodup := by
  induction names generalizing init with
  | nil => simpa
  | cons n ns ih =>
    rw [List.foldl_cons]
    apply ih
    unfold propagateStep
    cases hget inbound n with
    | none => exact h
    | some v =>
      by_cases hvz : v = ""
      · simp only [hvz, ne_eq, not_true_eq_false, if_false]
        exact h
      · simp only [ne_eq, hvz, not_false_eq_true, if_true]
        exact nodup_keys_hset _ _ _ h

theorem nodup_keys_setOptional (hs : List (String × String))
    (name : String) (v : Option String) (h : (hs.map Prod.fst).Nodup) :
    ((setOptionalHeader hs name v).map Prod.fst).Nodup := by
  cases v with
  | none => exact h
  | some s =>
    by_cases hz : s = ""
    · simp only [setOptionalHeader, hz, ne_eq, not_true_eq_false, if_false]
      exact h
    · simp only [setOptionalHeader, ne_eq, hz, not_false_eq_true, if_true]
      exact nodup_keys_hset _ _ _ h

theorem hget_setOptional (hs : List (String × String)) (name : String)
    (v : Option String) (x : String) :
    hget (setOptionalHeader hs name v) x =
      if x = name ∧ strTruthy v = true then v else hget hs x := by
  cases v with
  | none => simp [setOptionalHeader, strTruthy]
  | some s =>
    by_cases hz : s = ""
    · simp [setOptionalHeader, hz, strTruthy]
    · by_cases hx : x = name
      · subst hx
        simp [setOptionalHeader, hz, strTruthy, hget_hset]
      · simp [setOptionalHeader, hz, strTruthy, hget_hset, hx]

theorem nodup_keys_extract (inbound : List (String × String))
    (user : Option AuthenticatedUser) (freshId : String) :
    ((extractHeaders inbound user freshId).map Prod.fst).Nodup := by
  have h0 : ((baseHeaders inbound).map Prod.fst).Nodup :=
    nodup_keys_propagate inbound PROPAGATED_HEADERS [] (by simp)
  have h1 : ((withGatewayHeaders (baseHeaders inbound)).map Prod.fst).Nodup :=
    nodup_keys_hset _ _ _ (nodup_keys_hset _ _ _ h0)
  have h2 : ((withRequestId (withGatewayHeaders (baseHeaders inbound))
      freshId).map Prod.fst).Nodup := by
    unfold withRequestId
    split
    · exact h1
    · exact nodup_keys_hset _ _ _ h1
  unfold extractHeaders withUserHeaders
  cases user with
  | none => exact h2
  | some u =>
    exact nodup_keys_setOptional _ _ _ (nodup_keys_setOptional _ _ _
      (nodup_keys_hset _ "x-user-role" u.role
        (nodup_keys_hset _ "x-user-id" u.userId h2)))

theorem hget_extract (inbound : List (String × String))
    (user : Option AuthenticatedUser) (freshId : String)
    (hin : ∀ kv ∈ inbound, Prod.snd kv ≠ "")
    (hu : ∀ u, user = some u → u.email ≠ some "" ∧ u.idRefugio ≠ some "")
    (h : String) :
    hget (extractHeaders inbound user freshId) h =
      specOutboundHeaders inbound user freshId h := by
  have hin2 : ∀ k v, hget inbound k = some v → v ≠ "" :=
    fun k v hv => hin (k, v) (hget_mem inbound k v hv)
  cases user with
  | none =>
    simp only [extractHeaders, withUserHeaders, specOutboundHeaders,
      hget_withRequestId, hget_withGateway, hget_base]
    by_cases h1 : h = "X-Gateway"
    · subst h1; simp [PROPAGATED_HEADERS]
    · by_cases h2 : h = "X-Gateway-Version"
      · subst h2; simp [PROPAGATED_HEADERS]
      · by_cases h3 : h = "x-request-id"
        · subst h3
          cases hv : hget inbound "x-request-id" with
          | none => simp [PROPAGATED_HEADERS, hv, strTruthy]
          | some v =>
            simp [PROPAGATED_HEADERS, hv, strTruthy, hin2 _ _ hv]
        · by_cases h8 : h ∈ PROPAGATED_HEADERS
          · have h4 : ¬ h = "x-user-id" := by
              rintro rfl; exact absurd h8 (by decide)
            have h5 : ¬ h = "x-user-role" := by
              rintro rfl; exact absurd h8 (by decide)
            have h6 : ¬ h = "x-user-email" := by
              rintro rfl; exact absurd h8 (by decide)
            have h7 : ¬ h = "x-user-refugio" := by
              rintro rfl; exact absurd h8 (by decide)
            cases hv : hget inbound h with
            | none => simp [h1, h2, h3, h4, h5, h6, h7, h8, hv, strTruthy]
            | some v =>
              simp [h1, h2, h3, h4, h5, h6, h7, h8, hv, strTruthy, hin2 _ _ hv]
          · simp [h1, h2, h3, h8]
  | some u =>
    have hu2 := hu u rfl
    simp only [extractHeaders, withUserHeaders, specOutboundHeaders,
      hget_setOptional, hget_hset, hget_withRequestId, hget_withGateway,
      hget_base]
    by_cases h1 : h = "X-Gateway"
    · subst h1; simp [PROPAGATED_HEADERS]
    · by_cases h2 : h = "X-Gateway-Version"
      · subst h2; simp [PROPAGATED_HEADERS]
      · by_cases h3 : h = "x-request-id"
        · subst h3
          cases hv : hget inbound "x-request-id" with
          | none => simp [PROPAGATED_HEADERS, hv, strTruthy]
          | some v =>
            simp [PROPAGATED_HEADERS, hv, strTruthy, hin2 _ _ hv]
        · by_cases h4 : h = "x-user-id"
          · subst h4; simp [PROPAGATED_HEADERS]
          · by_cases h5 : h = "x-user-role"
            · subst h5; simp [PROPAGATED_HEADERS]
            · by_cases h6 : h = "x-user-email"
              · subst h6
                cases he : u.email with
                | none => simp [PROPAGATED_HEADERS, he, strTruthy]
                | some e =>
                  have hez : e ≠ "" := by
                    intro hz
                    exact hu2.1 (by rw [he, hz])
                  simp [PROPAGATED_HEADERS, he, strTruthy, hez]
              · by_cases h7 : h = "x-user-refugio"
                · subst h7
                  cases hr : u.idRefugio with
                  | none => simp [PROPAGATED_HEADERS, hr, strTruthy]
                  | some r =>
                    have hrz : r ≠ "" := by
                      intro hz
                      exact hu2.2 (by rw [hr, hz])
                    simp [PROPAGATED_HEADERS, hr, strTruthy, hrz]
                · by_cases h8 : h ∈ PROPAGATED_HEADERS
                  · cases hv : hget inbound h with
                    | none =>
                      simp [h1, h2, h3, h4, h5, h6, h7, h8, hv, strTruthy]
                    | some v =>
                      simp [h1, h2, h3, h4, h5, h6, h7, h8, hv, strTruthy,
                        hin2 _ _ hv]
                  · simp [h1, h2, h3, h4, h5, h6, h7, h8]

/-- C6: for every forwarded request, the outbound header object holds exactly
the allow-listed inbound headers that were present (with non-empty values),
the two fixed gateway headers, exactly one request id (the inbound one when
present, otherwise the freshly generated one), and — iff an authenticated
identity is attached — the user id and role headers plus email and refugio
when those identity fields are present; every key is unique and no other
inbound header is propagated. -/
theorem extract_headers_exact (inbound : List (String × String))
    (user : Option AuthenticatedUser) (freshId : String)
    (hin : ∀ kv ∈ inbound, Prod.snd kv ≠ "")
    (hu : ∀ u, user = some u → u.email ≠ some "" ∧ u.idRefugio ≠ some "") :
    (∀ h, hget (extractHeaders inbound user freshId) h =
        specOutboundHeaders inbound user freshId h) ∧
    ((extractHeaders inbound user freshId).map Prod.fst).Nodup ∧
    ((extractHeaders inbound user freshId).map Prod.fst).count "x-request-id"
      = 1 := by
  refine ⟨hget_extract inbound user freshId hin hu, nodup_keys_extract _ _ _, ?_⟩
  have hmem : "x-request-id" ∈ (extractHeaders inbound user freshId).map Prod.fst := by
    have hsome : hget (extractHeaders inbound user freshId) "x-request-id" =
        some (match hget inbound "x-request-id" with
              | some v => v
              | none => freshId) := by
      rw [hget_extract inbound user freshId hin hu]
      cases user <;> simp [specOutboundHeaders]
    cases hv : hget (extractHeaders inbound user freshId) "x-request-id" with
    | none => rw [hv] at hsome; cases hsome
    | some v =>
      have := hget_mem _ _ _ hv
      exact List.mem_map.mpr ⟨("x-request-id", v), this, rfl⟩
  exact List.count_eq_one_of_mem (nodup_keys_extract _ _ _) hmem

/-- C6 witness: a concrete request with three inbound headers (one outside
the allow-list), an authenticated identity with an email and no refugio, and
a fresh id; the outbound map matches the spec description pointwise and has
no duplicate keys. -/
theorem extract_headers_exact_witness :
    (∀ h, hget (extractHeaders
        [("authorization", "Bearer tok"), ("host", "example.com"),
         ("x-request-id", "req-7")]
        (some { userId := "u1", email := some "a@b.c", role := "admin",
                idRefugio := none, nombre := none }) "gw-1") h =
      specOutboundHeaders
        [("authorization", "Bearer tok"), ("host", "example.com"),
         ("x-request-id", "req-7")]
        (some { userId := "u1", email := some "a@b.c", role := "admin",
                idRefugio := none, nombre := none }) "gw-1" h) ∧
    ((extractHeaders
        [("authorization", "Bearer tok"), ("host", "example.com"),
         ("x-request-id", "req-7")]
        (some { userId := "u1", email := some "a@b.c", role := "admin",
                idRefugio := none, nombre := none }) "gw-1").map
        Prod.fst).Nodup ∧
    ((extractHeaders
        [("authorization", "Bearer tok"), ("host", "example.com"),
         ("x-request-id", "req-7")]
        (some { userId := "u1", email := some "a@b.c", role := "admin",
                idRefugio := none, nombre := none }) "gw-1").map
        Prod.fst).count "x-request-id" = 1 := by
  exact extract_headers_exact
    [("authorization", "Bearer tok"), ("host", "example.com"),
     ("x-request-id", "req-7")]
    (some { userId := "u1", email := some "a@b.c", role := "admin",
            idRefugio := none, nombre := none }) "gw-1"
    (by decide)
    (by
      rintro u hu
      cases hu
      exact ⟨by decide, by decide⟩)

/-! ## Claim C7: three concurrent rate-limit tiers -/

theorem admit_fresh (t0 : Nat) :
    admitOne throttlerTiers startStates t0 = ([⟨t0, 1⟩, ⟨t0, 1⟩, ⟨t0, 1⟩], none) := by
  simp [admitOne, throttlerTiers, startStates, tierStep]

theorem admit_in_window (t0 c t : Nat) (ht : t < t0 + 1000) (hc : c ≤ 49) :
    admitOne throttlerTiers [some ⟨t0, c⟩, some ⟨t0, c⟩, some ⟨t0, c⟩] t =
      ([⟨t0, c + 1⟩, ⟨t0, c + 1⟩, ⟨t0, c + 1⟩],
       if 10 < c + 1 then some ("short", t0 + 1000 - t) else none) := by
  have h1 : ¬ (t0 + 1000 ≤ t) := by omega
  have h2 : ¬ (t0 + 10000 ≤ t) := by omega
  have h3 : ¬ (t0 + 60000 ≤ t) := by omega
  have h4 : ¬ (50 < c + 1) := by omega
  have h5 : ¬ (100 < c + 1) := by omega
  by_cases h6 : 10 < c + 1 <;>
    simp [admitOne, throttlerTiers, tierStep, h1, h2, h3, h4, h5, h6,
      Nat.add_comm 1000 t0]

theorem runAdmits_in_window (t0 : Nat) (mid : List Nat) (c : Nat)
    (h : ∀ t ∈ mid, t < t0 + 1000) (hc : c + mid.length ≤ 49) :
    (runAdmits throttlerTiers mid
        [some ⟨t0, c⟩, some ⟨t0, c⟩, some ⟨t0, c⟩]).1 =
      [some ⟨t0, c + mid.length⟩, some ⟨t0, c + mid.length⟩,
       some ⟨t0, c + mid.length⟩] := by
  induction mid generalizing c with
  | nil => simp [runAdmits]
  | cons t ts ih =>
    have ht : t < t0 + 1000 := h t (List.mem_cons_self _ _)
    have hstep := admit_in_window t0 c t ht (by simp at hc; omega)
    have hrec := ih (c + 1) (fun x hx => h x (List.mem_cons_of_mem _ hx))
      (by simp at hc ⊢; omega)
    have hcons : (runAdmits throttlerTiers (t :: ts)
        [some ⟨t0, c⟩, some ⟨t0, c⟩, some ⟨t0, c⟩]).1 =
        (runAdmits throttlerTiers ts
          ((admitOne throttlerTiers
            [some ⟨t0, c⟩, some ⟨t0, c⟩, some ⟨t0, c⟩] t).1.map some)).1 := rfl
    rw [hcons, hstep]
    show (runAdmits throttlerTiers ts
        [some ⟨t0, c + 1⟩, some ⟨t0, c + 1⟩, some ⟨t0, c + 1⟩]).1 = _
    rw [hrec]
    have harith : c + 1 + ts.length = c + (t :: ts).length := by
      simp
      omega
    rw [harith]

theorem admit_none_iff (tiers : List Tier) (sts : List (Option TierState))
    (now : Nat) :
    (admitOne tiers sts now).2 = none ↔
      ∀ p ∈ tiers.zip sts, (tierStep p.1.ttl p.2 now).count ≤ p.1.limit := by
  simp only [admitOne]
  cases hfe : ((tiers.zip sts).map
      (fun p => (p.1, tierStep p.1.ttl p.2 now))).filter
      (fun p => decide (p.1.limit < p.2.count)) with
  | nil =>
    simp only [hfe]
    constructor
    · intro _ p hp
      have hf := List.filter_eq_nil_iff.mp hfe (p.1, tierStep p.1.ttl p.2 now)
        (List.mem_map.mpr ⟨p, hp, rfl⟩)
      simp at hf
      omega
    · intro _
      trivial
  | cons q rest =>
    simp only [hfe]
    constructor
    · intro hcontra
      cases hcontra
    · intro hall
      exfalso
      have hq : q ∈ ((tiers.zip sts).map
          (fun p => (p.1, tierStep p.1.ttl p.2 now))).filter
          (fun p => decide (p.1.limit < p.2.count)) := by
        rw [hfe]
        exact List.mem_cons_self _ _
      have hq2 := List.of_mem_filter hq
      have hq3 := List.mem_of_mem_filter hq
      rcases List.mem_map.mp hq3 with ⟨p, hp, rfl⟩
      have hle := hall p hp
      simp at hq2
      omega

/-- C7: the three tiers registered with the throttler are short = (1 s, 10),
medium = (10 s, 50), long = (60 s, 100); a request is admitted iff its
attempt would exceed no tier's max; after ten requests from one client inside
one short window, the 11th request within that same second is rejected — the
throttler stage answers 429 — with a retry-after hint of at most one second,
and the first request after the short window has elapsed is admitted. -/
theorem rate_limit_three_tiers (t0 t10 t2 : Nat) (mid : List Nat)
    (hlen : mid.length = 9) (hmid : ∀ t ∈ mid, t < t0 + 1000)
    (h10a : t0 ≤ t10) (h10b : t10 < t0 + 1000) (h2 : t0 + 1000 ≤ t2) :
    throttlerTiers =
      [⟨"short", 1000, 10⟩, ⟨"medium", 10000, 50⟩, ⟨"long", 60000, 100⟩] ∧
    (∀ tiers sts now, (admitOne tiers sts now).2 = none ↔
        ∀ p ∈ tiers.zip sts, (tierStep p.1.ttl p.2 now).count ≤ p.1.limit) ∧
    (admitOne throttlerTiers (statesAfter (t0 :: mid)) t10).2 =
      some ("short", t0 + 1000 - t10) ∧
    t0 + 1000 - t10 ≤ 1000 ∧
    throttlerStage (admitOne throttlerTiers (statesAfter (t0 :: mid)) t10).2 =
      .error ⟨429, "ThrottlerException: Too Many Requests"⟩ ∧
    (admitOne throttlerTiers
        ((admitOne throttlerTiers (statesAfter (t0 :: mid)) t10).1.map some)
        t2).2 = none := by
  have hstates : statesAfter (t0 :: mid) =
      [some ⟨t0, 10⟩, some ⟨t0, 10⟩, some ⟨t0, 10⟩] := by
    have hcons : statesAfter (t0 :: mid) =
        (runAdmits throttlerTiers mid
          ((admitOne throttlerTiers startStates t0).1.map some)).1 := rfl
    rw [hcons, admit_fresh]
    show (runAdmits throttlerTiers mid
        [some ⟨t0, 1⟩, some ⟨t0, 1⟩, some ⟨t0, 1⟩]).1 = _
    rw [runAdmits_in_window t0 mid 1 hmid (by omega), hlen]
  have h11 := admit_in_window t0 10 t10 h10b (by omega)
  refine ⟨rfl, admit_none_iff, ?_, by omega, ?_, ?_⟩
  · rw [hstates, h11]
    simp
  · rw [hstates, h11]
    simp [throttlerStage]
  · rw [hstates, h11]
    show (admitOne throttlerTiers
        [some ⟨t0, 11⟩, some ⟨t0, 11⟩, some ⟨t0, 11⟩] t2).2 = none
    have hs1 : t0 + 1000 ≤ t2 := h2
    by_cases hm : t0 + 10000 ≤ t2 <;> by_cases hl : t0 + 60000 ≤ t2 <;>
      simp [admitOne, throttlerTiers, tierStep, hs1, hm, hl]

/-- C7 witness: eleven requests from one client at millisecond 0 — the 11th
is rejected with tier `short` and a 1000 ms retry hint, the throttler answers
429, and a request at millisecond 1000 (the window boundary) is admitted. -/
theorem rate_limit_three_tiers_witness :
    throttlerTiers =
      [⟨"short", 1000, 10⟩, ⟨"medium", 10000, 50⟩, ⟨"long", 60000, 100⟩] ∧
    (∀ tiers sts now, (admitOne tiers sts now).2 = none ↔
        ∀ p ∈ tiers.zip sts, (tierStep p.1.ttl p.2 now).count ≤ p.1.limit) ∧
    (admitOne throttlerTiers
        (statesAfter (0 :: [0, 0, 0, 0, 0, 0, 0, 0, 0])) 0).2 =
      some ("short", 0 + 1000 - 0) ∧
    0 + 1000 - 0 ≤ 1000 ∧
    throttlerStage (admitOne throttlerTiers
        (statesAfter (0 :: [0, 0, 0, 0, 0, 0, 0, 0, 0])) 0).2 =
      .error ⟨429, "ThrottlerException: Too Many Requests"⟩ ∧
    (admitOne throttlerTiers
        ((admitOne throttlerTiers
            (statesAfter (0 :: [0, 0, 0, 0, 0, 0, 0, 0, 0])) 0).1.map some)
        1000).2 = none :=
  rate_limit_three_tiers 0 0 1000 [0, 0, 0, 0, 0, 0, 0, 0, 0] rfl
    (by intro t ht; simp at ht; omega) (Nat.le_refl 0) (by omega) (by omega)

end ApiGateway
